import Mathlib

/-!
Shallow embedding of `app.py` of the exchange-ics-sync service.

Conventions of the embedding:
* The ICS document bytes are modelled as a `String` (byte equality is string
  equality for the purposes of the claims).
* Timestamps (`datetime.now(pytz.UTC)`) are modelled as `Nat` values supplied
  explicitly by the environment (a monotone physical clock).
* Python truthiness on strings (`if s:`) is: `None` and `""` are falsy.
* Python string operations are modelled on `List Char` (`String.data`) so that
  every definition is executable and kernel-reducible.
* `hmac.compare_digest` is modelled by its functional behaviour (equality);
  its timing behaviour is outside the embedding.
-/

/-- Python `s.lstrip('/')`: remove every leading `/`. -/
def lstrip_slash (s : String) : String :=
  String.mk (s.data.dropWhile (· = '/'))

/-- Python `s[n:]` on a string (drop the first `n` characters). -/
def str_drop (s : String) (n : Nat) : String :=
  String.mk (s.data.drop n)

/-- Python `s[:n]` on a string (take the first `n` characters). -/
def str_take (s : String) (n : Nat) : String :=
  String.mk (s.data.take n)

/-- Python `s.startswith(p)`. -/
def str_starts_with (s p : String) : Bool :=
  p.data.isPrefixOf s.data

/-- Python `a or b` on an optional string (`None` and `""` are falsy). -/
def py_or (a : Option String) (b : String) : String :=
  match a with
  | some s => if s = "" then b else s
  | none => b

/-- `hmac.compare_digest`, functionally: equality of the two strings.
(The constant-time execution property of the real function is a timing
property with no counterpart in a functional embedding.) -/
def compare_digest (a b : String) : Bool :=
  a = b

/-- Python `template.replace('\x7bcalendar_name\x7d', name)`: replace every
occurrence of the placeholder, scanning left to right, never rescanning the
replacement (exactly `str.replace` for this pattern). -/
def subst_calendar_name (name : List Char) : List Char → List Char
  | '\x7b' :: 'c' :: 'a' :: 'l' :: 'e' :: 'n' :: 'd' :: 'a' :: 'r' :: '_' ::
      'n' :: 'a' :: 'm' :: 'e' :: '\x7d' :: rest => name ++ subst_calendar_name name rest
  | c :: rest => c :: subst_calendar_name name rest
  | [] => []

/-- The process configuration (the keys of `config.yaml` the core reads).
`Option` mirrors `dict.get`: `none` means the key is absent and the code
default applies; `server.token` may also be present but empty. -/
structure Config where
  token : Option String
  calendar_url_path : Option String
  calendar_name : Option String
  sync_interval_minutes : Option Nat
  secure_healthcheck : Option Bool
  days_past : Option Nat
  days_future : Option Nat
deriving DecidableEq

/-- `config['calendar'].get('name', 'calendar')`. -/
def cfg_calendar_name (cfg : Config) : String :=
  cfg.calendar_name.getD "calendar"

/-- `config['calendar'].get('sync_interval_minutes', 15) * 60`. -/
def sync_interval_seconds (cfg : Config) : Nat :=
  cfg.sync_interval_minutes.getD 15 * 60

/-- The mutable globals `calendar_cache` / `last_sync_time` (both start `None`). -/
structure AppState where
  calendar_cache : Option String
  last_sync_time : Option Nat
deriving DecidableEq

/-- Process environment: `APP_VERSION` and the installed package metadata
version (`none` models `PackageNotFoundError`). -/
structure Env where
  app_version : Option String
  package_version : Option String
deriving DecidableEq

/-- `_get_app_version`: the `APP_VERSION` env var if truthy, else package
metadata, else `"unknown"`. -/
def get_app_version (env : Env) : String :=
  match env.app_version with
  | some v => if v = "" then env.package_version.getD "unknown" else v
  | none => env.package_version.getD "unknown"

/-- An inbound HTTP request as the handlers see it: method, raw path,
`authorization` header (absent ↦ `none`), `token` query parameter. -/
structure HttpRequest where
  method : String
  rawPath : String
  authorization : Option String
  token_param : Option String
deriving DecidableEq

/-- An HTTP response: status, body (absent for the opaque 404), media type,
and extra headers. -/
structure HttpResponse where
  status : Nat
  body : Option String
  mediaType : Option String
  headers : List (String × String)
deriving DecidableEq

/-- `_not_found()`: `Response(status_code=404, content=None, media_type=None)`. -/
def not_found : HttpResponse :=
  { status := 404, body := none, mediaType := none, headers := [] }

/-- The 503 response when `calendar_cache is None`. -/
def service_unavailable : HttpResponse :=
  { status := 503
    body := some "Service temporarily unavailable"
    mediaType := some "text/plain"
    headers := [] }

/-- `_verify_bearer_token`: the configured token must be truthy, the
`Authorization` header must start with `"Bearer "`, and the remainder must
equal the configured token (via `hmac.compare_digest`). Never consults
query parameters. -/
def verify_bearer_token (cfg : Config) (req : HttpRequest) : Bool :=
  match cfg.token with
  | none => false
  | some expected =>
    if expected = "" then false
    else
      let auth := req.authorization.getD ""
      if str_starts_with auth "Bearer " then compare_digest (str_drop auth 7) expected
      else false

/-- `@app.exception_handler(StarletteHTTPException)` — any HTTP error raised
by the framework (unknown method, etc.) becomes the opaque 404. -/
def http_exc_handler (_req : HttpRequest) (_status : Nat) : HttpResponse :=
  not_found

/-- `@app.exception_handler(RequestValidationError)` — malformed requests
become the opaque 404. -/
def validation_exc_handler (_req : HttpRequest) : HttpResponse :=
  not_found

/-- `@app.exception_handler(Exception)` — any unhandled internal exception
becomes the opaque 404. -/
def generic_exc_handler (_req : HttpRequest) : HttpResponse :=
  not_found

/-- The effective calendar path of `catch_all`:
`calendar_url_path.replace('\x7bcalendar_name\x7d', calendar_name).lstrip('/')`,
with the code defaults for the two config keys. -/
def expected_path (cfg : Config) : String :=
  lstrip_slash
    (String.mk
      (subst_calendar_name (cfg_calendar_name cfg).data
        (cfg.calendar_url_path.getD "/cal/\x7bcalendar_name\x7d.ics").data))

/-- The credential extraction of `catch_all`: the `Authorization` header if it
starts with `"Bearer "` (then the part after the prefix), else the `token`
query parameter. -/
def provided_token (req : HttpRequest) : Option String :=
  let auth := req.authorization.getD ""
  if str_starts_with auth "Bearer " then some (str_drop auth 7)
  else req.token_param

/-- The 200 calendar response of `catch_all`: the cached document with
`text/calendar` media type, a filename content disposition, and a
`max-age` cache directive of the sync interval in seconds. -/
def calendar_ok (cfg : Config) (doc : String) : HttpResponse :=
  { status := 200
    body := some doc
    mediaType := some "text/calendar"
    headers :=
      [("Content-Disposition", "attachment; filename=" ++ cfg_calendar_name cfg ++ ".ics"),
       ("Cache-Control", "max-age=" ++ toString (sync_interval_seconds cfg))] }

/-- `catch_all(request, path)`: path check first, then token presence and
constant-time comparison, then serve the snapshot (503 when empty). -/
def catch_all (cfg : Config) (st : AppState) (req : HttpRequest) (path : String) :
    HttpResponse :=
  if path ≠ expected_path cfg then not_found
  else
    match cfg.token with
    | none => not_found
    | some expected_token =>
      if expected_token = "" then not_found
      else
        match provided_token req with
        | none => not_found
        | some pt =>
          if pt = "" then not_found
          else if ¬ compare_digest pt expected_token then not_found
          else
            match st.calendar_cache with
            | none => service_unavailable
            | some doc => calendar_ok cfg doc

/-- The JSON rendering of `last_sync` (`isoformat()` or `null`); the
timestamp itself is abstract, rendered by `toString`. -/
def iso_or_null : Option Nat → String
  | some t => "\"" ++ toString t ++ "\""
  | none => "null"

/-- The body of the `/health` `JSONResponse`. -/
def health_payload (st : AppState) (env : Env) : String :=
  "\x7b\"status\": \"healthy\", \"last_sync\": " ++ iso_or_null st.last_sync_time ++
    ", \"version\": \"" ++ get_app_version env ++ "\"\x7d"

/-- The 200 response of `/health`. -/
def health_ok (st : AppState) (env : Env) : HttpResponse :=
  { status := 200
    body := some (health_payload st env)
    mediaType := some "application/json"
    headers := [] }

/-- `health(request)`: when `server.secure_healthcheck` (default `True`) is
set, require `_verify_bearer_token`; otherwise answer unconditionally. -/
def health (cfg : Config) (env : Env) (st : AppState) (req : HttpRequest) :
    HttpResponse :=
  if cfg.secure_healthcheck.getD true then
    if ¬ verify_bearer_token cfg req then not_found
    else health_ok st env
  else health_ok st env

/-- The path parameter captured by the route `/\x7bpath:path\x7d`: the raw
request path with its leading `/` removed. -/
def captured (raw : String) : String :=
  if str_starts_with raw "/" then str_drop raw 1 else raw

/-- What the server receives for one unit of work: a request that reaches a
route handler, a malformed request (fails framework validation), or a request
whose handling raises an unhandled internal exception. -/
inductive ServerInput where
  | request (req : HttpRequest)
  | malformed (req : HttpRequest)
  | internalFault (req : HttpRequest)
deriving DecidableEq

/-- The full dispatch of the application: the two exception handlers, the
framework's 405 for a method with no matching route (both `@app.get` routes
accept only GET), the `/health` route, and the catch-all route. -/
def serve (cfg : Config) (env : Env) (st : AppState) : ServerInput → HttpResponse
  | .malformed req => validation_exc_handler req
  | .internalFault req => generic_exc_handler req
  | .request req =>
    if req.method ≠ "GET" then http_exc_handler req 405
    else if req.rawPath = "/health" then health cfg env st req
    else catch_all cfg st req (captured req.rawPath)

/-- The rejection causes enumerated from the branch structure of the code:
malformed request, internal fault, non-GET method, health gate failure, wrong
path, no secret configured, missing/empty/mismatched credential. (An empty
snapshot is not a rejection: it yields the 503.) -/
def is_rejected (cfg : Config) (inp : ServerInput) : Bool :=
  match inp with
  | .malformed _ => true
  | .internalFault _ => true
  | .request req =>
    if req.method ≠ "GET" then true
    else if req.rawPath = "/health" then
      if cfg.secure_healthcheck.getD true then ¬ verify_bearer_token cfg req else false
    else
      if captured req.rawPath ≠ expected_path cfg then true
      else
        match cfg.token with
        | none => true
        | some tok =>
          if tok = "" then true
          else
            match provided_token req with
            | none => true
            | some pt =>
              if pt = "" then true
              else ¬ compare_digest pt tok

/-- One iteration of the `while True` loop of `sync_calendar_worker`:
`none` models `fetch_calendar_events` raising (the `except` branch writes
nothing), `some doc` models a successful fetch (under the lock, both the
cache and the timestamp are replaced). -/
def sync_step (st : AppState) (fetch_result : Option String) (now : Nat) : AppState :=
  match fetch_result with
  | none => st
  | some doc => { calendar_cache := some doc, last_sync_time := some now }

/-- The timestamps the worker records, one per successful attempt, for a run
of the loop over a list of `(fetch outcome, clock reading)` attempts. -/
def success_stamps : List (Option String × Nat) → List Nat
  | [] => []
  | (none, _) :: rest => success_stamps rest
  | (some _, t) :: rest => t :: success_stamps rest

/-- The query window `fetch_calendar_events` passes to
`account.calendar.view`: `(now, now + timedelta(days=days_future))`, with time
in seconds. The code reads `days_past` (default 30) but never uses it. -/
def fetch_window (cfg : Config) (now : Int) : Int × Int :=
  (now, now + (cfg.days_future.getD 365 : Int) * 86400)

/-- Modelled from the spec (for comparison with `fetch_window`): the window
the spec describes, `days_past` days into the past through `days_future` days
into the future from now. -/
def spec_window (cfg : Config) (now : Int) : Int × Int :=
  (now - (cfg.days_past.getD 30 : Int) * 86400,
   now + (cfg.days_future.getD 365 : Int) * 86400)

/-- A naive datetime, enough to mirror `strftime('%Y%m%dT%H%M%S')` and
`.date()`. -/
structure DateTime6 where
  year : Nat
  month : Nat
  day : Nat
  hour : Nat
  minute : Nat
  second : Nat
deriving DecidableEq

/-- Zero-pad to two digits (strftime `%m`, `%d`, `%H`, `%M`, `%S`). -/
def pad2 (n : Nat) : String :=
  if n < 10 then "0" ++ toString n else toString n

/-- Zero-pad to four digits (strftime `%Y` for a calendar year). -/
def pad4 (n : Nat) : String :=
  if n < 10 then "000" ++ toString n
  else if n < 100 then "00" ++ toString n
  else if n < 1000 then "0" ++ toString n
  else toString n

/-- `start.strftime('%Y%m%dT%H%M%S')`. -/
def strftime_compact (d : DateTime6) : String :=
  pad4 d.year ++ pad2 d.month ++ pad2 d.day ++ "T" ++
    pad2 d.hour ++ pad2 d.minute ++ pad2 d.second

/-- An Exchange `CalendarItem` as `convert_exchange_item_to_ical_event` reads
it. Optional fields model Python `None`; the organizer is its email address. -/
structure ExchangeItem where
  uid : Option String
  item_id : String
  subject : Option String
  text_body : Option String
  location : Option String
  is_all_day : Bool
  start : DateTime6
  end_ : DateTime6
  categories : Option (List String)
  importance : Option String
  datetime_created : Option DateTime6
  last_modified_time : Option DateTime6
  is_cancelled : Bool
  organizer : Option String
deriving DecidableEq

/-- A value attached to an ICS event property by `event.add`. -/
inductive IcsValue where
  | str (s : String)
  | date (year month day : Nat)
  | dateTime (dt : DateTime6)
  | strList (l : List String)
  | nat (n : Nat)
deriving DecidableEq

/-- `priority_map.get(item.importance, 5)`. -/
def priority_of : String → Nat
  | "Low" => 9
  | "Normal" => 5
  | "High" => 1
  | _ => 5

/-- The UID the conversion derives:
`(item.uid or f"\x7bitem.item_id\x7d@exchange") + "-" + start.strftime('%Y%m%dT%H%M%S')`. -/
def event_uid (item : ExchangeItem) : String :=
  py_or item.uid (item.item_id ++ "@exchange") ++ "-" ++ strftime_compact item.start

/-- `convert_exchange_item_to_ical_event(item)`: the ordered list of
`(property, value)` pairs added by `event.add`, exactly in source order.
`now` models `datetime.now(pytz.UTC)`. -/
def convert_exchange_item_to_ical_event (item : ExchangeItem) (now : DateTime6) :
    List (String × IcsValue) :=
  [("uid", IcsValue.str (event_uid item)),
   ("uid", IcsValue.str (event_uid item)),
   ("summary", IcsValue.str (py_or item.subject "(No Subject)"))] ++
  (match item.text_body with
   | some b => if b = "" then [] else [("description", IcsValue.str (str_take b 1000))]
   | none => []) ++
  (match item.location with
   | some l => if l = "" then [] else [("location", IcsValue.str l)]
   | none => []) ++
  (if item.is_all_day then
    [("dtstart", IcsValue.date item.start.year item.start.month item.start.day),
     ("dtend", IcsValue.date item.end_.year item.end_.month item.end_.day)]
   else
    [("dtstart", IcsValue.dateTime item.start),
     ("dtend", IcsValue.dateTime item.end_)]) ++
  (match item.categories with
   | some cats => if cats = [] then [] else [("categories", IcsValue.strList cats)]
   | none => []) ++
  (match item.importance with
   | some imp => if imp = "" then [] else [("priority", IcsValue.nat (priority_of imp))]
   | none => []) ++
  [("created", IcsValue.dateTime (item.datetime_created.getD now)),
   ("last-modified", IcsValue.dateTime (item.last_modified_time.getD now)),
   ("dtstamp", IcsValue.dateTime now),
   ("status", IcsValue.str (if item.is_cancelled then "CANCELLED" else "CONFIRMED"))] ++
  (match item.organizer with
   | some org => [("organizer", IcsValue.str ("mailto:" ++ org))]
   | none => [])

/-! Example configuration and states (the repository's test configuration). -/

/-- The configuration of the repository's tests: secret `"secret-token"`,
calendar `"TestCal"`, template `/cal/\x7bcalendar_name\x7d.ics`. -/
def cfg_ex : Config :=
  { token := some "secret-token"
    calendar_url_path := some "/cal/\x7bcalendar_name\x7d.ics"
    calendar_name := some "TestCal"
    sync_interval_minutes := some 15
    secure_healthcheck := some true
    days_past := some 1
    days_future := some 1 }

/-- A state with a populated snapshot. -/
def st_full : AppState :=
  { calendar_cache := some "BEGIN:VCALENDAR\nEND:VCALENDAR\n", last_sync_time := some 5 }

/-- The startup state: empty snapshot. -/
def st_empty : AppState :=
  { calendar_cache := none, last_sync_time := none }

/-- An environment with `APP_VERSION=1.2.3`. -/
def env_ex : Env :=
  { app_version := some "1.2.3", package_version := none }

/-- `GET /cal/TestCal.ics?token=secret-token` (no header). -/
def req_cal_query : HttpRequest :=
  { method := "GET"
    rawPath := "/cal/TestCal.ics"
    authorization := none
    token_param := some "secret-token" }

/-- `GET /wrong.ics?token=secret-token`. -/
def req_wrong : HttpRequest :=
  { method := "GET"
    rawPath := "/wrong.ics"
    authorization := none
    token_param := some "secret-token" }

/-- `GET /health?token=secret-token` (no header). -/
def req_health_query : HttpRequest :=
  { method := "GET"
    rawPath := "/health"
    authorization := none
    token_param := some "secret-token" }

/-- `GET /health` with `Authorization: Bearer secret-token`. -/
def req_health_bearer : HttpRequest :=
  { method := "GET"
    rawPath := "/health"
    authorization := some "Bearer secret-token"
    token_param := none }

/-- An item matching the all-day item of the repository's tests (body
shortened). -/
def item_ex : ExchangeItem :=
  { uid := some "uid-123"
    item_id := "item-123"
    subject := some "Subject"
    text_body := some "AB"
    location := some "Room 1"
    is_all_day := true
    start := { year := 2024, month := 1, day := 1, hour := 0, minute := 0, second := 0 }
    end_ := { year := 2024, month := 1, day := 2, hour := 0, minute := 0, second := 0 }
    categories := some ["Cat"]
    importance := some "High"
    datetime_created := none
    last_modified_time := none
    is_cancelled := false
    organizer := some "org@example.com" }

/-- A conversion clock reading. -/
def now_ex : DateTime6 :=
  { year := 2024, month := 6, day := 1, hour := 12, minute := 0, second := 0 }

/-! Theorems. -/

/-- `success_stamps` is a sublist of the clock readings of the attempts. -/
theorem success_stamps_sublist (attempts : List (Option String × Nat)) :
    List.Sublist (success_stamps attempts) (attempts.map Prod.snd) := by
  induction attempts with
  | nil => simp [success_stamps]
  | cons hd tl ih =>
    obtain ⟨res, t⟩ := hd
    cases res with
    | none => simpa [success_stamps] using ih.cons t
    | some d => simpa [success_stamps] using ih.cons₂ t

/-- Claim C1: every rejected request — malformed request, internal fault,
non-GET method, health-gate failure, wrong path, no secret configured,
missing/empty/mismatched credential — gets the one canonical opaque
response: 404, empty body, no content type, identical across causes. -/
theorem C1_opaque_rejection (cfg : Config) (env : Env) (st : AppState)
    (inp : ServerInput) (h : is_rejected cfg inp = true) :
    serve cfg env st inp = not_found ∧
      not_found.status = 404 ∧ not_found.body = none ∧ not_found.mediaType = none := by
  refine ⟨?_, rfl, rfl, rfl⟩
  cases inp with
  | malformed req => rfl
  | internalFault req => rfl
  | request req =>
    by_cases hm : req.method = "GET"
    · by_cases hp : req.rawPath = "/health"
      · simp only [is_rejected, hm, hp, ne_eq, not_true_eq_false, if_false, if_true] at h
        by_cases hs : cfg.secure_healthcheck.getD true = true
        · simp only [hs, if_true] at h
          have hv : verify_bearer_token cfg req = false := by
            simpa using h
          simp [serve, hm, hp, health, hs, hv]
        · simp [hs] at h
      · by_cases hpath : captured req.rawPath = expected_path cfg
        · simp only [is_rejected, hm, hp, hpath, ne_eq, not_true_eq_false, if_false,
            not_false_eq_true, if_true] at h
          cases htok : cfg.token with
          | none =>
            simp [serve, hm, hp, catch_all, hpath, htok]
          | some tok =>
            simp only [htok] at h
            by_cases hte : tok = ""
            · simp [serve, hm, hp, catch_all, hpath, htok, hte]
            · simp only [hte, if_false, if_neg hte] at h
              cases hpt : provided_token req with
              | none =>
                simp [serve, hm, hp, catch_all, hpath, htok, hte, hpt]
              | some pt =>
                simp only [hpt] at h
                by_cases hpe : pt = ""
                · simp [serve, hm, hp, catch_all, hpath, htok, hte, hpt, hpe]
                · simp only [hpe, if_false, if_neg hpe] at h
                  have hcd : compare_digest pt tok = false := by simpa using h
                  simp [serve, hm, hp, catch_all, hpath, htok, hte, hpt, hpe, hcd]
        · simp [serve, hm, hp, catch_all, hpath]
    · simp [serve, hm, http_exc_handler]

/-- Claim C1 witness: a malformed request gets the canonical response. -/
theorem C1_opaque_rejection_witness :
    is_rejected cfg_ex (.malformed req_cal_query) = true ∧
    serve cfg_ex env_ex st_full (.malformed req_cal_query) = not_found := by
  refine ⟨by decide, ?_⟩
  exact (C1_opaque_rejection cfg_ex env_ex st_full _ (by decide)).1

/-- Claim C2: a request path different from the effective calendar path
(template with the calendar name substituted, leading separator removed)
yields the opaque 404, whatever credential material the request carries. -/
theorem C2_path_gate (cfg : Config) (st : AppState) (req : HttpRequest)
    (path : String) (h : path ≠ expected_path cfg) :
    catch_all cfg st req path = not_found ∧
    (∀ auth q, catch_all cfg st
        { req with authorization := auth, token_param := q } path = not_found) := by
  constructor
  · simp [catch_all, h]
  · intro auth q
    simp [catch_all, h]

/-- Claim C2 witness: the concrete scenario of the spec — secret
`"secret-token"`, calendar `"TestCal"`, template `/cal/\x7bcalendar_name\x7d.ics`,
request `/wrong.ics?token=secret-token` — is answered with 404. -/
theorem C2_path_gate_witness :
    captured "/wrong.ics" ≠ expected_path cfg_ex ∧
    expected_path cfg_ex = "cal/TestCal.ics" ∧
    catch_all cfg_ex st_full req_wrong (captured "/wrong.ics") = not_found := by
  refine ⟨by decide, by decide, ?_⟩
  exact (C2_path_gate cfg_ex st_full _ _ (by decide)).1

/-- Claim C3: a GET for the calendar path with a valid credential (taken from
the Bearer header first, else the `token` query parameter) and a non-empty
snapshot is answered 200 with the snapshot document, `text/calendar` media
type, a content disposition ending in `<calendar-name>.ics`, and a
`max-age` equal to the refresh interval in seconds. -/
theorem C3_calendar_success (cfg : Config) (st : AppState) (req : HttpRequest)
    (doc tok : String)
    (hcache : st.calendar_cache = some doc)
    (htok : cfg.token = some tok) (hne : tok ≠ "")
    (hprov : provided_token req = some tok) :
    catch_all cfg st req (expected_path cfg) = calendar_ok cfg doc ∧
    (calendar_ok cfg doc).status = 200 ∧
    (calendar_ok cfg doc).body = some doc ∧
    (calendar_ok cfg doc).mediaType = some "text/calendar" ∧
    (calendar_ok cfg doc).headers =
      [("Content-Disposition", "attachment; filename=" ++ cfg_calendar_name cfg ++ ".ics"),
       ("Cache-Control", "max-age=" ++ toString (sync_interval_seconds cfg))] ∧
    List.IsSuffix (cfg_calendar_name cfg ++ ".ics").data
      ("attachment; filename=" ++ cfg_calendar_name cfg ++ ".ics").data := by
  refine ⟨?_, rfl, rfl, rfl, rfl, ?_⟩
  · simp [catch_all, htok, hne, hprov, hcache, compare_digest]
  · have h1 : ("attachment; filename=" ++ cfg_calendar_name cfg ++ ".ics").data
        = "attachment; filename=".data ++ (cfg_calendar_name cfg ++ ".ics").data := by
      show ("attachment; filename=".data ++ (cfg_calendar_name cfg).data) ++ ".ics".data
          = "attachment; filename=".data ++ ((cfg_calendar_name cfg).data ++ ".ics".data)
      exact List.append_assoc _ _ _
    rw [h1]
    exact List.suffix_append _ _

/-- Claim C3 witness: the populated-snapshot scenario of the tests. -/
theorem C3_calendar_success_witness :
    st_full.calendar_cache = some "BEGIN:VCALENDAR\nEND:VCALENDAR\n" ∧
    provided_token req_cal_query = some "secret-token" ∧
    catch_all cfg_ex st_full req_cal_query (expected_path cfg_ex)
      = calendar_ok cfg_ex "BEGIN:VCALENDAR\nEND:VCALENDAR\n" ∧
    (calendar_ok cfg_ex "BEGIN:VCALENDAR\nEND:VCALENDAR\n").headers =
      [("Content-Disposition", "attachment; filename=TestCal.ics"),
       ("Cache-Control", "max-age=900")] := by
  refine ⟨by decide, by decide, ?_, by decide⟩
  exact (C3_calendar_success cfg_ex st_full _ _ "secret-token" (by decide) (by decide)
    (by decide) (by decide)).1

/-- Claim C4: a GET for the calendar path with a valid credential while the
snapshot is empty is answered 503 with a plain-text body, not the opaque 404. -/
theorem C4_empty_snapshot_503 (cfg : Config) (st : AppState) (req : HttpRequest)
    (tok : String)
    (hcache : st.calendar_cache = none)
    (htok : cfg.token = some tok) (hne : tok ≠ "")
    (hprov : provided_token req = some tok) :
    catch_all cfg st req (expected_path cfg) = service_unavailable ∧
    service_unavailable.status = 503 ∧
    service_unavailable.body = some "Service temporarily unavailable" ∧
    service_unavailable.mediaType = some "text/plain" ∧
    service_unavailable ≠ not_found := by
  refine ⟨?_, rfl, rfl, rfl, by decide⟩
  simp [catch_all, htok, hne, hprov, hcache, compare_digest]

/-- Claim C4 witness: the empty-snapshot scenario of the tests. -/
theorem C4_empty_snapshot_503_witness :
    st_empty.calendar_cache = none ∧
    catch_all cfg_ex st_empty req_cal_query (expected_path cfg_ex)
      = service_unavailable := by
  refine ⟨by decide, ?_⟩
  exact (C4_empty_snapshot_503 cfg_ex st_empty _ "secret-token" (by decide) (by decide)
    (by decide) (by decide)).1

/-- Claim C5: a failed refresh attempt leaves the snapshot (document and
timestamp) exactly as it was; a successful one replaces it wholesale with the
new document and clock reading; across a run whose clock readings strictly
increase, the recorded timestamps of the successful attempts strictly
increase. -/
theorem C5_refresh_atomicity :
    (∀ (st : AppState) (now : Nat), sync_step st none now = st) ∧
    (∀ (st : AppState) (doc : String) (now : Nat),
       sync_step st (some doc) now =
         { calendar_cache := some doc, last_sync_time := some now }) ∧
    (∀ attempts : List (Option String × Nat),
       (attempts.map Prod.snd).Pairwise (· < ·) →
       (success_stamps attempts).Pairwise (· < ·)) := by
  refine ⟨fun st now => rfl, fun st doc now => rfl, fun attempts h => ?_⟩
  exact h.sublist (success_stamps_sublist attempts)

/-- Claim C5 witness: a success, a failure, a success, on a strictly
increasing clock. -/
theorem C5_refresh_atomicity_witness :
    sync_step st_full none 7 = st_full ∧
    sync_step st_full (some "NEW") 9 =
      { calendar_cache := some "NEW", last_sync_time := some 9 } ∧
    ([((some "a" : Option String), 1), (none, 2), (some "b", 3)].map
        Prod.snd).Pairwise (· < ·) ∧
    (success_stamps [(some "a", 1), (none, 2), (some "b", 3)]).Pairwise (· < ·) := by
  refine ⟨C5_refresh_atomicity.1 st_full 7, C5_refresh_atomicity.2.1 st_full "NEW" 9,
    by decide, ?_⟩
  exact C5_refresh_atomicity.2.2 _ (by decide)

/-- Claim C6 counterexample: with the secure health policy on (the default)
and the correct secret presented as the `token` query parameter only, the
code answers `/health` with the opaque 404, not with 200 — `/health` never
consults the query parameter. -/
theorem C6_counterexample :
    cfg_ex.secure_healthcheck.getD true = true ∧
    req_health_query.token_param = cfg_ex.token ∧
    serve cfg_ex env_ex st_full (.request req_health_query) = not_found ∧
    (serve cfg_ex env_ex st_full (.request req_health_query)).status ≠ 200 := by
  decide

/-- Claim C6 (amended): with the secure health policy on, `/health` is gated
by `_verify_bearer_token`, which reads only the `Authorization: Bearer`
header — the `token` query parameter is never consulted; a valid header
yields 200, anything else the opaque 404. -/
theorem C6_amended_health_gate (cfg : Config) (env : Env) (st : AppState)
    (req : HttpRequest)
    (hm : req.method = "GET") (hp : req.rawPath = "/health")
    (hsec : cfg.secure_healthcheck.getD true = true) :
    (verify_bearer_token cfg req = true →
       serve cfg env st (.request req) = health_ok st env ∧
       (health_ok st env).status = 200) ∧
    (verify_bearer_token cfg req = false →
       serve cfg env st (.request req) = not_found) ∧
    (∀ q, health cfg env st { req with token_param := q } = health cfg env st req) ∧
    (∀ q, verify_bearer_token cfg { req with token_param := q }
       = verify_bearer_token cfg req) := by
  refine ⟨fun hv => ⟨?_, rfl⟩, fun hv => ?_, fun q => rfl, fun q => rfl⟩
  · simp [serve, hm, hp, health, hsec, hv]
  · simp [serve, hm, hp, health, hsec, hv]

/-- Claim C6 amended witness: the Bearer-header request is answered 200. -/
theorem C6_amended_health_gate_witness :
    verify_bearer_token cfg_ex req_health_bearer = true ∧
    serve cfg_ex env_ex st_full (.request req_health_bearer) = health_ok st_full env_ex ∧
    (health_ok st_full env_ex).status = 200 := by
  refine ⟨by decide, ?_⟩
  exact (C6_amended_health_gate cfg_ex env_ex st_full req_health_bearer rfl rfl
    (by decide)).1 (by decide)

/-- Claim C7: the window the code passes to `account.calendar.view` starts at
`now`, not `days_past` days before `now` as configured and specified —
`days_past` is read but never used. At `days_past = 1`, `days_future = 1`,
`now = 0`: the code queries `(0, 86400)` while the spec window is
`(-86400, 86400)`. -/
theorem C7_window_ignores_days_past :
    fetch_window cfg_ex 0 = (0, 86400) ∧
    spec_window cfg_ex 0 = (-86400, 86400) ∧
    (fetch_window cfg_ex 0).1 ≠ (spec_window cfg_ex 0).1 ∧
    (∀ cfg : Config, ∀ now : Int, (fetch_window cfg now).1 = now) := by
  refine ⟨by decide, by decide, by decide, fun cfg now => rfl⟩

/-- Claim C9: the conversion adds the `uid` property exactly twice, both
times with the deterministically derived value
`(item.uid or item.item_id ++ "@exchange") ++ "-" ++ strftime('%Y%m%dT%H%M%S')`,
independent of the conversion time. -/
theorem C9_uid_added_twice (item : ExchangeItem) (now : DateTime6) :
    (convert_exchange_item_to_ical_event item now).filter (fun p => p.1 = "uid")
      = [("uid", IcsValue.str (event_uid item)),
         ("uid", IcsValue.str (event_uid item))] ∧
    event_uid item
      = py_or item.uid (item.item_id ++ "@exchange") ++ "-" ++ strftime_compact item.start := by
  refine ⟨?_, rfl⟩
  cases htb : item.text_body <;> cases hl : item.location <;>
    cases hc : item.categories <;> cases him : item.importance <;>
    cases ho : item.organizer <;> cases had : item.is_all_day <;>
    simp [convert_exchange_item_to_ical_event, htb, hl, hc, him, ho, had,
      List.filter_append,
      apply_ite (List.filter fun p : String × IcsValue => decide (p.1 = "uid"))]

/-- Claim C10: a truthy text body yields exactly one `description` property
holding the first 1000 characters of the body; an absent or empty body yields
no `description` property at all. -/
theorem C10_description_truncated (item : ExchangeItem) (now : DateTime6) :
    (∀ b, item.text_body = some b → b ≠ "" →
       (convert_exchange_item_to_ical_event item now).filter
           (fun p => p.1 = "description")
         = [("description", IcsValue.str (str_take b 1000))]) ∧
    (item.text_body = none ∨ item.text_body = some "" →
       (convert_exchange_item_to_ical_event item now).filter
           (fun p => p.1 = "description") = []) := by
  constructor
  · intro b hb hbne
    cases hl : item.location <;> cases hc : item.categories <;>
      cases him : item.importance <;> cases ho : item.organizer <;>
      cases had : item.is_all_day <;>
      simp [convert_exchange_item_to_ical_event, List.filter_append, hb, hbne, hl,
        hc, him, ho, had,
        apply_ite (List.filter fun p : String × IcsValue => decide (p.1 = "description"))]
  · intro hb
    rcases hb with hb | hb <;>
    · cases hl : item.location <;> cases hc : item.categories <;>
        cases him : item.importance <;> cases ho : item.organizer <;>
        cases had : item.is_all_day <;>
        simp [convert_exchange_item_to_ical_event, List.filter_append, hb, hl,
          hc, him, ho, had,
          apply_ite (List.filter fun p : String × IcsValue => decide (p.1 = "description"))]

/-- Claim C10 witness: the test item carries its whole short body as the
description; the same item with the body removed carries none. -/
theorem C10_description_truncated_witness :
    item_ex.text_body = some "AB" ∧
    (convert_exchange_item_to_ical_event item_ex now_ex).filter
        (fun p => p.1 = "description")
      = [("description", IcsValue.str (str_take "AB" 1000))] ∧
    ({ item_ex with text_body := none } : ExchangeItem).text_body = none ∧
    (convert_exchange_item_to_ical_event { item_ex with text_body := none } now_ex).filter
        (fun p => p.1 = "description") = [] := by
  refine ⟨rfl, ?_, rfl, ?_⟩
  · exact (C10_description_truncated item_ex now_ex).1 "AB" rfl (by decide)
  · exact (C10_description_truncated { item_ex with text_body := none } now_ex).2
      (Or.inl rfl)
